import Mathlib

/- Shallow embedding of the concurrent video-generation and stitching pipeline of
the adk-voice-agent repository.  The embedded modules are
src/app/utils/video_generation.py (async pipeline: VideoGenerator, VideoStitcher,
VideoProcessingPipeline), src/app/utils/video_gen.py (legacy threaded generator)
and src/app/utils/video_editor.py (legacy stitcher).  Network transport, the
external rendering service, the file system and the scheduler are modelled by
explicit oracles (per-attempt results, per-index download/open success flags,
lock flags, interleaving schedules); machine-level details that the claims do not
depend on are not modelled. -/

deriving instance DecidableEq for Except

namespace VideoAgent

/-- Input scene record, the dictionaries produced by the script agent and fed to
the pipeline: keys sec, scene, dialog (video_generation.py line 351 constructs
Scene(**scene_data) from exactly these). -/
structure SceneData where
  sec : Int
  scene : String
  dialog : String
deriving DecidableEq

/-- The Scene dataclass of video_generation.py lines 39-50: sec, scene, dialog
and an optional url, absent until generation succeeds. -/
structure Scene where
  sec : Int
  scene : String
  dialog : String
  url : Option String
deriving DecidableEq

/-- Scene(**scene_data) construction with an explicit url argument
(url defaults to None in the dataclass). -/
def mkScene (d : SceneData) (url : Option String) : Scene :=
  ⟨d.sec, d.scene, d.dialog, url⟩

/-- Python truthiness of an optional string: None and the empty string are
falsy.  Used by the filters `if scene.url` and `if not scene.url`. -/
def truthyUrl : Option String → Bool
  | none => false
  | some u => !(u = "")

namespace VideoGeneration

/-- Alphabet used by _generate_session_hash (video_generation.py line 89):
string.ascii_letters + string.digits, 62 characters. -/
def sessionHashChars : List Char :=
  "abcdefghijklmnopqrstuvwxyzABCDEFGHIJKLMNOPQRSTUVWXYZ0123456789".data

/-- The _generate_session_hash method (line 87-89): thirteen independent random
choices from the 62-character alphabet.  The randomness source is the oracle
pick. -/
def generateSessionHash (pick : Fin 13 → Fin 62) : String :=
  String.mk ((List.finRange 13).map fun i => sessionHashChars.getD (pick i).val 'a')

/-- The message of the VideoGenerationError raised after exhausting retries
(video_generation.py line 119).  It interpolates only the retry count and the
last cause; the scene is not part of the message. -/
def retryMessage (maxRetries : Nat) (cause : String) : String :=
  "Failed to generate video after " ++ toString maxRetries ++ " attempts: " ++ cause

/-- The retry loop of generate_single_video (video_generation.py lines 110-119):
`for attempt in range(max_retries)`.  The loop index is i; remaining counts the
iterations left (invariant i + remaining = maxRetries at the top-level call), so
that the recursion is structural.  Each attempt is the oracle attemptRes i
(ok url, or error message for a raised exception).  On failure with
i < maxRetries - 1 the code sleeps retry_delay * 2 ** attempt and retries; on
the last failed attempt it raises VideoGenerationError.  The first component of
the value is none when the loop body never runs (range over 0), some (ok url)
on success, some (error msg) after exhausting retries; the second component is
the list of sleep durations performed, in order. -/
def genLoop (attemptRes : Nat → Except String String) (maxRetries : Nat) (d : ℚ) :
    Nat → Nat → List ℚ → Option (Except String String) × List ℚ
  | _, 0, sleeps => (none, sleeps)
  | i, remaining + 1, sleeps =>
    match attemptRes i with
    | .ok u => (some (.ok u), sleeps)
    | .error e =>
      if i < maxRetries - 1 then
        genLoop attemptRes maxRetries d (i + 1) remaining (sleeps ++ [d * 2 ^ i])
      else
        (some (.error (retryMessage maxRetries e)), sleeps)

/-- generate_single_video for one scene (video_generation.py lines 91-119).
The scene parameter is carried because the source method receives it, but it is
used only in log lines; the raised error message does not mention it. -/
def generateSingleVideo (scene : Scene) (attemptRes : Nat → Except String String)
    (maxRetries : Nat) (retryDelay : ℚ) : Option (Except String String) × List ℚ :=
  genLoop attemptRes maxRetries retryDelay 0 maxRetries []

/-- Shared mutable state of the single VideoGenerator instance used by the whole
pipeline: the instance attribute self.session_hash (line 61), plus, for two
concurrent generate calls A and B, the session_hash value each one actually
used for its SSE subscription (none while not yet subscribed). -/
structure SharedGenState where
  sessionHash : String
  subA : Option String
  subB : Option String
deriving DecidableEq

/-- Observable steps of two concurrent _generate_video_attempt calls on the one
shared VideoGenerator.  setHash models line 129 (self.session_hash =
self._generate_session_hash(), immediately copied into queue_data); subscribe
models line 155, where _wait_for_video_result builds the SSE url from
self.session_hash as read at that moment.  Between the two steps of one call
sit the awaits of lines 139-151, so the scheduler may interleave the other
call. -/
inductive GenStep
  | setHashA (token : String)
  | setHashB (token : String)
  | subscribeA
  | subscribeB
deriving DecidableEq

/-- Effect of one step on the shared generator state. -/
def stepGen : SharedGenState → GenStep → SharedGenState
  | st, .setHashA t => { st with sessionHash := t }
  | st, .setHashB t => { st with sessionHash := t }
  | st, .subscribeA => { st with subA := some st.sessionHash }
  | st, .subscribeB => { st with subB := some st.sessionHash }

/-- Execution of an interleaving of the two concurrent calls, from the initial
state self.session_hash = "" (line 61). -/
def runGen (steps : List GenStep) : SharedGenState :=
  steps.foldl stepGen { sessionHash := "", subA := none, subB := none }

/-- One server-sent event as seen by _wait_for_video_result: an event with
falsy data, an event whose data is not valid JSON, or a parsed JSON object
with its msg field and the deep lookup
output.data[0].video.url (none when any level is missing). -/
inductive SseEvent
  | noData
  | malformed
  | parsed (msg : String) (videoUrl : Option String)
deriving DecidableEq

/-- The _wait_for_video_result event loop of video_generation.py lines 153-194.
Falsy-data events are skipped (line 168); JSONDecodeError is caught and the
loop continues (line 188); msg = process_completed with a truthy url returns
the url, and with a falsy or missing url raises VideoGenerationError which the
outer handler rewraps as an SSE Error (lines 172-179, 191-192); msg =
estimation only logs; msg = close_stream breaks out of the loop; exhausting
the stream without a completed event raises VideoGenerationError at line 194. -/
def waitForVideoResult : List SseEvent → Except String String
  | [] => .error "No video URL received"
  | .noData :: rest => waitForVideoResult rest
  | .malformed :: rest => waitForVideoResult rest
  | .parsed msg videoUrl :: rest =>
    if msg = "process_completed" then
      match videoUrl with
      | some u => if u = "" then .error "SSE Error: Invalid video data received" else .ok u
      | none => .error "SSE Error: Invalid video data received"
    else if msg = "close_stream" then .error "No video URL received"
    else waitForVideoResult rest

/-- The distinct ValueError raise sites of VideoStitcher.stitch_videos
(video_generation.py lines 226, 248, 258, 276) plus a write failure escaping
both write_videofile attempts of the stitch closure (lines 287-297). -/
inductive StitchErr
  | noScenes
  | noValidUrls
  | noneDownloaded
  | noClips
  | writeFailed
deriving DecidableEq

/-- Message of the exception modelled by each StitchErr constructor, as
str(e) seen by the pipeline handler. -/
def stitchErrMsg : StitchErr → String
  | .noScenes => "No scenes provided for stitching"
  | .noValidUrls => "No valid video URLs to download"
  | .noneDownloaded => "No videos downloaded successfully"
  | .noClips => "No valid video clips created"
  | .writeFailed => "write_videofile failed"

/-- Environment oracles for one stitch_videos call, keyed by the enumerate
index of each scene in the input list: whether the download of the clip of
scene i completes (download_video writes the temp file and returns its path),
whether VideoFileClip can open the downloaded file of scene i, whether the
write_videofile phase succeeds, and whether temp file i is still locked when
_cleanup_temp_files tries to delete it. -/
structure StitchEnv where
  downloadOk : Nat → Bool
  openOk : Nat → Bool
  writeOk : Bool
  locked : Nat → Bool

/-- Run-scoped resources of one stitch call: the temp files currently existing
on disk (named by the enumerate index of their scene) and the VideoFileClip
handles currently open (same naming). -/
structure ResState where
  tempFiles : List Nat
  openClips : List Nat
deriving DecidableEq

/-- The _cleanup_temp_files method (video_generation.py lines 323-331), run by
the finally block on every exit path: each existing temp file is removed; a
deletion failure (for example a file still locked) is caught, logged and
skipped.  The surviving files are exactly the locked ones. -/
def cleanupTempFiles (locked : Nat → Bool) (created : List Nat) : List Nat :=
  created.filter locked

/-- VideoStitcher.stitch_videos (video_generation.py lines 214-321).
Control flow, in source order:
raise on empty scene list (line 226); build the download task list from the
scenes with a truthy url, keeping their enumerate index (lines 235-245); raise
when no task was built (line 248); gather the downloads with
return_exceptions=True — results come back in task order, and a temp file
exists exactly for the successful downloads (lines 252-255); raise when none
succeeded (line 258); open each valid file as a clip, skipping files that fail
to open (lines 263-273); raise when no clip was created (line 276); then
concatenate the clips in list order and write the output (lines 279-305).
The first component is the outcome: on success the output path together with
the ordered list of scenes whose clips compose the written video; on failure
the StitchErr of the exception that propagates.  The second component is the
resource state after the except/finally blocks: the except block closes every
clip (lines 312-316), the success path closes them in stitch() (lines
299-301), and the finally block runs _cleanup_temp_files (lines 319-321). -/
def stitchVideosRun (env : StitchEnv) (scenes : List Scene) (outputPath : String) :
    Except StitchErr (String × List Scene) × ResState :=
  if scenes = [] then
    (.error .noScenes, ⟨[], []⟩)
  else
    let tasks := scenes.enum.filter fun p => truthyUrl p.2.url
    if tasks = [] then
      (.error .noValidUrls, ⟨[], []⟩)
    else
      let valid := tasks.filter fun p => env.downloadOk p.1
      let created := valid.map Prod.fst
      if valid = [] then
        (.error .noneDownloaded, ⟨cleanupTempFiles env.locked created, []⟩)
      else
        let clips := valid.filter fun p => env.openOk p.1
        if clips = [] then
          (.error .noClips, ⟨cleanupTempFiles env.locked created, []⟩)
        else
          if env.writeOk then
            (.ok (outputPath, clips.map Prod.snd), ⟨cleanupTempFiles env.locked created, []⟩)
          else
            (.error .writeFailed, ⟨cleanupTempFiles env.locked created, []⟩)

/-- Ordering key used by successful_scenes.sort(key=lambda x: x.sec)
(video_generation.py line 383). -/
def secLe (a b : Scene) : Prop := a.sec ≤ b.sec

instance : DecidableRel secLe := fun a b => inferInstanceAs (Decidable (a.sec ≤ b.sec))

instance : IsTotal Scene secLe := ⟨fun a b => Int.le_total a.sec b.sec⟩

instance : IsTrans Scene secLe := ⟨fun _ _ _ h h2 => le_trans h h2⟩

/-- VideoProcessingPipeline.process_scenes (video_generation.py lines 341-395).
A Scene object is built from every input dictionary (line 351); each scene is
generated through generate_single_video under the semaphore, the url attribute
receiving the returned url on success and None when the generation raised
(lines 356-364) — the oracle gen gives the per-scene outcome of
generate_single_video; generate_with_semaphore never raises, so gather returns
one Scene per input, in input order (lines 369-372); the successful scenes are
the ones with a truthy url (lines 375-378); they are sorted stably by sec
(line 383), and the returned response list contains exactly them (lines
385-395).  Python list.sort is stable, as is insertion sort. -/
def processScenes (gen : SceneData → Except String String) (scenesData : List SceneData) :
    List Scene :=
  let scenes := scenesData.map fun d => mkScene d (gen d).toOption
  let successfulScenes := scenes.filter fun s => truthyUrl s.url
  successfulScenes.insertionSort secLe

/-- Shape of the dictionary returned by generate_and_stitch_video: either
{"success": True, "path": ...} — together with the ghost observation of which
scene clips, in order, compose the written file — or
{"success": False, "error": ...}. -/
inductive PipelineOutcome
  | ok (path : String) (stitched : List Scene)
  | failure (error : String)
deriving DecidableEq

/-- VideoProcessingPipeline.generate_and_stitch_video (video_generation.py
lines 397-440).  It runs process_scenes; when the response list is empty it
returns the failure dictionary of line 417 without touching the stitcher;
otherwise it rebuilds Scene objects from the response items (lines 420-428),
invokes stitch_videos and returns its dictionary, while the except block turns
any exception raised by the stitcher into {"success": False, "error": str(e)}
(lines 435-437).  The boolean in the result records whether the stitcher was
invoked. -/
def generateAndStitchVideo (gen : SceneData → Except String String) (env : StitchEnv)
    (scenesData : List SceneData) (outputPath : String) : PipelineOutcome × Bool :=
  let response := processScenes gen scenesData
  if response = [] then
    (.failure "No videos were generated successfully", false)
  else
    let scenes := response.map fun s => mkScene ⟨s.sec, s.scene, s.dialog⟩ s.url
    match (stitchVideosRun env scenes outputPath).1 with
    | .ok (p, stitched) => (.ok p stitched, true)
    | .error e => (.failure (stitchErrMsg e), true)

end VideoGeneration

namespace VideoEditor

/-- Environment oracles for one legacy stitch_videos call
(video_editor.py), keyed by the position of each item in the input list:
whether the download of item i succeeds, whether VideoFileClip opens the
downloaded file of item i, whether the concatenate/write phase succeeds, and
whether temp file i raises PermissionError on deletion. -/
structure EditorEnv where
  downloadOk : Nat → Bool
  openOk : Nat → Bool
  concatWriteOk : Bool
  locked : Nat → Bool

/-- Outcome of the legacy stitch_videos: the success dictionary with the output
path, or an exception propagating to the caller with its message. -/
inductive EditorOutcome
  | ok (path : String)
  | exc (msg : String)
deriving DecidableEq

/-- The download-and-open loop of video_editor.py lines 25-44, processing the
items sequentially.  Items with a falsy url are skipped (lines 26-28).  For
each remaining item a named temp file is created on disk at once (line 31) and
recorded in temp_files (line 32); then the item is downloaded (lines 35-40) and
opened as a clip (lines 43-44).  A failed download or open raises immediately
— there is no per-item tolerance — leaving the loop with the files created and
the clips opened so far.  The value is (some exceptionMessage or none, temp
files created, clips opened). -/
def editorLoop (env : EditorEnv) :
    List (Nat × Scene) → List Nat → List Nat → Option String × List Nat × List Nat
  | [], created, opened => (none, created, opened)
  | (i, item) :: rest, created, opened =>
    if truthyUrl item.url then
      let created := created ++ [i]
      if env.downloadOk i then
        if env.openOk i then
          editorLoop env rest created (opened ++ [i])
        else
          (some "failed to open clip", created, opened)
      else
        (some "download failed", created, opened)
    else
      editorLoop env rest created opened

/-- The legacy stitch_videos of video_editor.py lines 9-68.  After the loop it
raises ValueError when no clip was opened (lines 47-48), otherwise
concatenates and writes (lines 50-51) and closes the clips only on this
success path (lines 54-56).  There is no except block: any exception
propagates, and the finally block (lines 60-68) deletes the created temp
files, skipping the ones whose deletion raises PermissionError — it never
closes clips.  The second component is the final resource state. -/
def stitchVideos (env : EditorEnv) (items : List Scene) (outputPath : String) :
    EditorOutcome × VideoGeneration.ResState :=
  match editorLoop env items.enum [] [] with
  | (some excMsg, created, opened) =>
    (.exc excMsg, ⟨created.filter env.locked, opened⟩)
  | (none, created, opened) =>
    if opened = [] then
      (.exc "No valid video clips to stitch.", ⟨created.filter env.locked, opened⟩)
    else if env.concatWriteOk then
      (.ok outputPath, ⟨created.filter env.locked, []⟩)
    else
      (.exc "write failed", ⟨created.filter env.locked, opened⟩)

end VideoEditor

namespace VideoGen

/-- The legacy _wait_for_video_result of video_gen.py lines 68-109.  Same event
loop, but every failure path returns the empty string instead of raising: the
invalid-completed-payload Exception is caught by the outer handler which only
prints and falls through to `return ""` (lines 96, 106-109), close_stream
breaks to `return ""`, and a stream that ends without a completed event also
reaches `return ""`. -/
def waitForVideoResult : List VideoGeneration.SseEvent → String
  | [] => ""
  | .noData :: rest => waitForVideoResult rest
  | .malformed :: rest => waitForVideoResult rest
  | .parsed msg videoUrl :: rest =>
    if msg = "process_completed" then
      match videoUrl with
      | some u => if u = "" then "" else u
      | none => ""
    else if msg = "close_stream" then ""
    else waitForVideoResult rest

/-- A scene dictionary as handled by generate_video_sequence: the caller keys
sec, scene, dialog, plus the url key that the worker adds (absent in the
caller input). -/
structure SceneDict where
  sec : Int
  scene : String
  dialog : String
  url : Option String
deriving DecidableEq

/-- Sort key of results.sort(key=lambda x: x.get(sec, 0)) (video_gen.py
line 188). -/
def dictSecLe (a b : SceneDict) : Prop := a.sec ≤ b.sec

instance : DecidableRel dictSecLe := fun a b => inferInstanceAs (Decidable (a.sec ≤ b.sec))

/-- Heap model of generate_video_sequence (video_gen.py lines 111-192).  The
callers scene dictionaries live in a heap of cells addressed by position;
addrs lists the addresses of the records the caller passes in.  Line 152
enqueues scene.copy() — a fresh cell per record, modelled by appending the
copies after the existing heap; the worker threads write the generated url
only into those copies (line 137, scene[url] = video_url, with the legacy
generator returning a plain string, possibly empty).  The oracle gen maps a
prompt to that string.  The value is the new heap and the result list —
the mutated copies sorted by sec (line 188). -/
def generateVideoSequence (heap : List SceneDict) (addrs : List Nat)
    (gen : String → String) : List SceneDict × List SceneDict :=
  let copies := addrs.map fun a => heap.getD a ⟨0, "", "", none⟩
  let processed := copies.map fun c => { c with url := some (gen c.scene) }
  (heap ++ processed, processed.insertionSort dictSecLe)

end VideoGen

namespace VideoGeneration

/-- A heap cell for the mutation model of process_scenes: either one of the
callers scene_data dictionaries, or a Scene dataclass instance allocated by
the pipeline. -/
inductive Obj
  | dict (d : SceneData)
  | scn (s : Scene)
deriving DecidableEq

/-- Heap model of process_scenes (video_generation.py lines 341-372), showing
where it writes.  Line 351 allocates a fresh Scene object per input dictionary
(Scene(**scene_data), url defaulting to None); generate_with_semaphore then
assigns scene.url on those fresh objects only (lines 359, 363).  The input
dictionaries are only read.  The value is the new heap and the addresses of
the allocated Scene objects. -/
def processScenesHeap (heap : List Obj) (addrs : List Nat)
    (gen : SceneData → Except String String) : List Obj × List Nat :=
  let scenes := addrs.map fun a =>
    match heap.getD a (Obj.dict ⟨0, "", ""⟩) with
    | .dict d => mkScene d none
    | .scn s => s
  let written := scenes.map fun s => { s with url := (gen ⟨s.sec, s.scene, s.dialog⟩).toOption }
  (heap ++ written.map Obj.scn, List.range' heap.length addrs.length)

/-- Observable of process_scenes used by the statements below: the scenes for
which generate_single_video succeeded (Scene objects with a truthy url), in
input order. -/
def genSuccesses (gen : SceneData → Except String String) (scenesData : List SceneData) :
    List Scene :=
  (scenesData.map fun d => mkScene d (gen d).toOption).filter fun s => truthyUrl s.url

/-- Observable of stitch_videos used by the statements below: the indexed
scenes that have a truthy url and whose clip both downloads and opens under
the environment env, in input order. -/
def survivors (env : StitchEnv) (scenes : List Scene) : List (Nat × Scene) :=
  scenes.enum.filter fun p => truthyUrl p.2.url && env.downloadOk p.1 && env.openOk p.1

end VideoGeneration

/- Concrete fixtures used by witnesses and counterexamples. -/

/-- A first concrete input scene. -/
def sdA : SceneData := ⟨1, "A fluffy tabby cat sits on a hardwood floor", "Purr"⟩

/-- A second concrete input scene, later in the timeline. -/
def sdB : SceneData := ⟨2, "The tabby cat bats at the red ball", "Tap"⟩

/-- Generation oracle where every scene fails (generate_single_video raises). -/
def genFail : SceneData → Except String String :=
  fun _ => .error "SSE Error: No video URL received"

/-- Generation oracle where every scene succeeds with a clip url. -/
def genOk : SceneData → Except String String := fun _ => .ok "https://clip.mp4"

/-- Stitch environment where every download, open and write succeeds and no
temp file is locked. -/
def envAllOk : VideoGeneration.StitchEnv :=
  ⟨fun _ => true, fun _ => true, true, fun _ => false⟩

/-- Stitch environment where only the download of the scene at index 1 fails. -/
def envDown1 : VideoGeneration.StitchEnv :=
  ⟨fun i => !(i = 1), fun _ => true, true, fun _ => false⟩

/-- Legacy-stitcher environment where only the download of the item at index 1
fails. -/
def eenvDown1 : VideoEditor.EditorEnv :=
  ⟨fun i => !(i = 1), fun _ => true, true, fun _ => false⟩

/-- Three scenes that all carry clip urls. -/
def itemsThree : List Scene :=
  [⟨1, "s1", "d1", some "https://a.mp4"⟩,
   ⟨2, "s2", "d2", some "https://b.mp4"⟩,
   ⟨3, "s3", "d3", some "https://c.mp4"⟩]

/-- A concrete scene whose identifier is the second 7. -/
def sceneSeven : Scene := ⟨7, "a dragon flies over a castle", "roar", none⟩

/-- Attempt oracle where every generation attempt raises. -/
def failBoom : Nat → Except String String := fun _ => .error "boom"

/-- Attempt oracle where the first attempt raises and the second succeeds. -/
def flakyAttempts : Nat → Except String String :=
  fun j => if j = 0 then .error "boom" else .ok "https://clip.mp4"

/-- Randomness oracle picking the first alphabet character every time. -/
def pickA : Fin 13 → Fin 62 := fun _ => ⟨0, by decide⟩

/-- Randomness oracle picking the second alphabet character every time. -/
def pickB : Fin 13 → Fin 62 := fun _ => ⟨1, by decide⟩

/-- Interleaving of two concurrent _generate_video_attempt calls on the one
shared VideoGenerator: A stores its fresh token, B stores its fresh token,
then both build their SSE subscription from self.session_hash. -/
def crosstalkSchedule : List VideoGeneration.GenStep :=
  [.setHashA (VideoGeneration.generateSessionHash pickA),
   .setHashB (VideoGeneration.generateSessionHash pickB),
   .subscribeA, .subscribeB]

/- Helper lemmas. -/

/-- Filtering with an everywhere-false predicate yields the empty list. -/
theorem filter_of_false {p : Nat → Bool} (h : ∀ i, p i = false) (l : List Nat) :
    l.filter p = [] :=
  List.filter_eq_nil_iff.mpr fun a _ => by simp [h a]

/-- When every generation fails, process_scenes produces an empty response. -/
theorem processScenes_eq_nil {gen : SceneData → Except String String}
    {sd : List SceneData} (h : ∀ d ∈ sd, (gen d).toOption = none) :
    VideoGeneration.processScenes gen sd = [] := by
  have hsucc : VideoGeneration.genSuccesses gen sd = [] := by
    rw [VideoGeneration.genSuccesses, List.filter_eq_nil_iff]
    intro s hs
    obtain ⟨d, hd, rfl⟩ := List.mem_map.mp hs
    simp [mkScene, truthyUrl, h d hd]
  rw [show VideoGeneration.processScenes gen sd
        = (VideoGeneration.genSuccesses gen sd).insertionSort VideoGeneration.secLe from rfl,
      hsucc]
  rfl

/- Claim theorems. -/

/-- Claim C3, counterexample: on the empty scene list, generate_and_stitch_video
does not raise a ValidationError — it returns the ordinary failure dictionary
{"success": False, "error": "No videos were generated successfully"} produced
by the all-failed branch, and never invokes the stitcher.  No exception of any
kind escapes the call (its except block swallows everything). -/
theorem empty_input_returns_failure_dict :
    VideoGeneration.generateAndStitchVideo genFail envAllOk [] "final_video.mp4" =
      (.failure "No videos were generated successfully", false) := rfl

/-- Claim C3, amended: for the empty scene list input, generate_and_stitch_video
returns the failure result with success False and the message
"No videos were generated successfully" (and does not invoke the stitcher),
for every generation oracle and environment, instead of raising a
ValidationError. -/
theorem empty_scenes_yield_failure_result (gen : SceneData → Except String String)
    (env : VideoGeneration.StitchEnv) (outputPath : String) :
    VideoGeneration.generateAndStitchVideo gen env [] outputPath =
      (.failure "No videos were generated successfully", false) := rfl

/-- Claim C5: if every scene in the batch fails generation, the pipeline
returns success False with the descriptive error
"No videos were generated successfully" and no output path, and the stitcher
is never invoked (the boolean stitch-invocation flag is false). -/
theorem all_failed_skips_stitcher (gen : SceneData → Except String String)
    (env : VideoGeneration.StitchEnv) (sd : List SceneData) (outputPath : String)
    (h : ∀ d ∈ sd, (gen d).toOption = none) :
    VideoGeneration.generateAndStitchVideo gen env sd outputPath =
      (.failure "No videos were generated successfully", false) := by
  simp [VideoGeneration.generateAndStitchVideo, processScenes_eq_nil h]

/-- Witness for C5 at a concrete one-scene batch whose generation fails. -/
theorem all_failed_skips_stitcher_witness :
    VideoGeneration.generateAndStitchVideo genFail envAllOk [sdA] "final_video.mp4" =
      (.failure "No videos were generated successfully", false) :=
  all_failed_skips_stitcher genFail envAllOk [sdA] "final_video.mp4" (fun _ _ => rfl)

/-- Claim C7: evaluation of the code at the failing interleaving.  The two
fresh 13-character tokens differ, but because self.session_hash is one shared
field of the single VideoGenerator used for all scenes, after the interleaving
[A stores its token, B stores its token, A subscribes, B subscribes] BOTH
calls subscribe to the event stream keyed by the token of B: call A does not
use its own token and its own subscription, contradicting the claimed absence
of shared mutable state between concurrent calls. -/
theorem session_hash_crosstalk :
    VideoGeneration.generateSessionHash pickA = "aaaaaaaaaaaaa" ∧
    VideoGeneration.generateSessionHash pickB = "bbbbbbbbbbbbb" ∧
    VideoGeneration.runGen crosstalkSchedule =
      { sessionHash := "bbbbbbbbbbbbb",
        subA := some "bbbbbbbbbbbbb",
        subB := some "bbbbbbbbbbbbb" } := by decide

/-- Claim C8, counterexample: in the legacy video_gen.py implementation, a
stream that closes without a completed event makes _wait_for_video_result
return the empty string — a returned value, not an error — and the same holds
when the stream simply ends.  The attempt therefore does not fail with an
error, contradicting the claim for this implementation. -/
theorem legacy_wait_returns_empty_on_close :
    VideoGen.waitForVideoResult [.parsed "close_stream" none] = "" ∧
    VideoGen.waitForVideoResult [] = "" := by decide

/-- Claim C8, amended: in the async video_generation.py implementation,
malformed or falsy-data events are skipped without failing the attempt, a
completed event with a valid (non-empty) clip url terminates the attempt
successfully with that url, and a stream with no completed event — whether it
ends, or closes via close_stream — makes the attempt fail with the error
"No video URL received".  The legacy video_gen.py implementation instead
returns the empty string in that case (see the counterexample). -/
theorem wait_event_handling :
    (∀ rest, VideoGeneration.waitForVideoResult (.malformed :: rest)
        = VideoGeneration.waitForVideoResult rest ∧
      VideoGeneration.waitForVideoResult (.noData :: rest)
        = VideoGeneration.waitForVideoResult rest) ∧
    (∀ u rest, ¬ u = "" →
      VideoGeneration.waitForVideoResult (.parsed "process_completed" (some u) :: rest)
        = .ok u) ∧
    (∀ events, (∀ m url, VideoGeneration.SseEvent.parsed m url ∈ events →
        ¬ m = "process_completed") →
      VideoGeneration.waitForVideoResult events = .error "No video URL received") := by
  refine ⟨fun rest => ⟨rfl, rfl⟩, fun u rest hu => ?_, ?_⟩
  · simp [VideoGeneration.waitForVideoResult, hu]
  · intro events
    induction events with
    | nil => intro _; rfl
    | cons e rest ih =>
      intro h
      cases e with
      | noData =>
        exact ih fun m u hm => h m u (List.mem_cons_of_mem _ hm)
      | malformed =>
        exact ih fun m u hm => h m u (List.mem_cons_of_mem _ hm)
      | parsed m url =>
        have hm : ¬ m = "process_completed" := h m url (List.mem_cons_self _ _)
        simp only [VideoGeneration.waitForVideoResult, if_neg hm]
        by_cases hc : m = "close_stream"
        · rw [if_pos hc]
        · rw [if_neg hc]
          exact ih fun m' u' hm' => h m' u' (List.mem_cons_of_mem _ hm')

/-- Witness for C8 at a concrete valid completed event. -/
theorem wait_event_handling_witness :
    VideoGeneration.waitForVideoResult
        [.parsed "process_completed" (some "https://clip.mp4")] = .ok "https://clip.mp4" :=
  wait_event_handling.2.1 "https://clip.mp4" [] (by decide)

/-- Claim C2, counterexample: for the one-scene batch whose generation fails,
the response list of process_scenes is empty — the failed scene is omitted
entirely, with no per-scene error entry — so its length is 0, not the input
length 1, and sequence index 1 does not appear in it. -/
theorem response_omits_failed_scene :
    VideoGeneration.processScenes genFail [sdA] = [] ∧
    ¬ (VideoGeneration.processScenes genFail [sdA]).length
        = ([sdA] : List SceneData).length := by decide

/-- Claim C2, amended: the response list of process_scenes contains exactly the
scenes whose generation succeeded (a permutation of them, every member with a
truthy url), so its length equals the number of successes — failed scenes are
omitted rather than reported with an error. -/
theorem response_exactly_successful_scenes (gen : SceneData → Except String String)
    (sd : List SceneData) :
    (VideoGeneration.processScenes gen sd).Perm (VideoGeneration.genSuccesses gen sd) ∧
    (VideoGeneration.processScenes gen sd).length
      = sd.countP (fun d => truthyUrl (gen d).toOption) ∧
    (∀ s, s ∈ VideoGeneration.processScenes gen sd → truthyUrl s.url = true) := by
  have hperm : List.Perm (VideoGeneration.processScenes gen sd)
      (VideoGeneration.genSuccesses gen sd) :=
    List.perm_insertionSort VideoGeneration.secLe (VideoGeneration.genSuccesses gen sd)
  refine ⟨hperm, ?_, ?_⟩
  · rw [hperm.length_eq, VideoGeneration.genSuccesses, ← List.countP_eq_length_filter,
      List.countP_map]
    rfl
  · intro s hs
    exact (List.mem_filter.mp (hperm.mem_iff.mp hs)).2

/-- Witness for C2 at a concrete successful scene. -/
theorem response_exactly_successful_scenes_witness :
    truthyUrl (mkScene sdA (some "https://clip.mp4")).url = true :=
  (response_exactly_successful_scenes genOk [sdA]).2.2
    (mkScene sdA (some "https://clip.mp4")) (by decide)

/-- Claim C10: process_scenes and the threaded generate_video_sequence leave
every pre-existing heap cell — in particular the callers scene records —
unchanged: process_scenes allocates fresh Scene objects and writes urls only
to them, and generate_video_sequence enqueues dict copies and writes urls only
to the copies. -/
theorem caller_scenes_unmutated (heap1 : List VideoGeneration.Obj) (addrs1 : List Nat)
    (gen1 : SceneData → Except String String) (heap2 : List VideoGen.SceneDict)
    (addrs2 : List Nat) (gen2 : String → String) :
    (VideoGeneration.processScenesHeap heap1 addrs1 gen1).1.take heap1.length = heap1 ∧
    (VideoGen.generateVideoSequence heap2 addrs2 gen2).1.take heap2.length = heap2 :=
  ⟨List.take_left _ _, List.take_left _ _⟩

/-- Behaviour of the retry loop from position i with rem iterations left when
every attempt up to the last one fails: the loop sleeps d * 2 ^ j after each
failed non-final attempt j and ends with the VideoGenerationError built from
the retry count and the cause of the last attempt. -/
theorem genLoop_all_fail (attemptRes : Nat → Except String String) (maxRetries : Nat)
    (d : ℚ) (e : String) :
    ∀ rem i sleeps, i + rem = maxRetries → i < maxRetries →
      (∀ j, i ≤ j → j < maxRetries → (attemptRes j).toOption = none) →
      attemptRes (maxRetries - 1) = .error e →
      VideoGeneration.genLoop attemptRes maxRetries d i rem sleeps =
        (some (.error (VideoGeneration.retryMessage maxRetries e)),
         sleeps ++ (List.range' i (maxRetries - 1 - i)).map fun j => d * 2 ^ j) := by
  intro rem
  induction rem with
  | zero => intro i sleeps hsum hi _ _; omega
  | succ r ih =>
    intro i sleeps hsum hi hfail hlast
    have hfi := hfail i le_rfl hi
    cases hcase : attemptRes i with
    | ok u => rw [hcase] at hfi; simp [Except.toOption] at hfi
    | error ei =>
      by_cases hlt : i < maxRetries - 1
      · simp only [VideoGeneration.genLoop, hcase, if_pos hlt]
        rw [ih (i + 1) (sleeps ++ [d * 2 ^ i]) (by omega) (by omega)
          (fun j hj1 hj2 => hfail j (by omega) hj2) hlast]
        have hn : maxRetries - 1 - i = (maxRetries - 1 - (i + 1)) + 1 := by omega
        rw [hn, List.range'_succ]
        simp
      · simp only [VideoGeneration.genLoop, hcase, if_neg hlt]
        have hieq : i = maxRetries - 1 := by omega
        rw [hieq] at hcase
        rw [hcase] at hlast
        have he : ei = e := by simpa using hlast
        have hz : maxRetries - 1 - i = 0 := by omega
        simp [he, hz]

/-- Behaviour of the retry loop from position i when the first k attempts fail
and attempt i + k succeeds: the loop sleeps after each of the k failures and
returns the url of the successful attempt. -/
theorem genLoop_first_success (attemptRes : Nat → Except String String) (maxRetries : Nat)
    (d : ℚ) (u : String) :
    ∀ k i rem sleeps, i + rem = maxRetries → i + k < maxRetries →
      (∀ j, i ≤ j → j < i + k → (attemptRes j).toOption = none) →
      attemptRes (i + k) = .ok u →
      VideoGeneration.genLoop attemptRes maxRetries d i rem sleeps =
        (some (.ok u), sleeps ++ (List.range' i k).map fun j => d * 2 ^ j) := by
  intro k
  induction k with
  | zero =>
    intro i rem sleeps hsum hik hfail hsucc
    obtain ⟨r, rfl⟩ : ∃ r, rem = r + 1 := ⟨rem - 1, by omega⟩
    rw [Nat.add_zero] at hsucc
    simp [VideoGeneration.genLoop, hsucc]
  | succ kk ih =>
    intro i rem sleeps hsum hik hfail hsucc
    obtain ⟨r, rfl⟩ : ∃ r, rem = r + 1 := ⟨rem - 1, by omega⟩
    have hfi := hfail i le_rfl (by omega)
    cases hcase : attemptRes i with
    | ok v => rw [hcase] at hfi; simp [Except.toOption] at hfi
    | error ei =>
      have hlt : i < maxRetries - 1 := by omega
      simp only [VideoGeneration.genLoop, hcase, if_pos hlt]
      rw [ih (i + 1) r (sleeps ++ [d * 2 ^ i]) (by omega) (by omega)
        (fun j hj1 hj2 => hfail j (by omega) (by omega))
        (by rw [show i + 1 + kk = i + (kk + 1) from by omega]; exact hsucc)]
      rw [List.range'_succ]
      simp

/-- Claim C4, counterexample: after all three attempts on the scene with
sequence index 7 fail with cause boom, the raised error message is exactly
"Failed to generate video after 3 attempts: boom" — it carries the attempt
count and the last cause but does not name the scene: the character 7 does
not occur in it (and no field of the scene is interpolated into it, see
retryMessage). -/
theorem retry_error_does_not_name_scene :
    (VideoGeneration.generateSingleVideo sceneSeven failBoom 3 1).1 =
      some (.error "Failed to generate video after 3 attempts: boom") ∧
    sceneSeven.sec = 7 ∧
    ¬ '7' ∈ "Failed to generate video after 3 attempts: boom".data := by decide

/-- Claim C4, amended: generate_single_video retries up to maxRetries
attempts, sleeping retry_delay * 2 ^ attempt between consecutive attempts
(attempt index starting at 0, no sleep after the last attempt), and after
exhausting all attempts raises a VideoGenerationError naming the attempt
count and the last cause (the scene is named only in the log lines, not in
the exception); if some attempt succeeds, its clip url is returned, with
exactly one backoff sleep per preceding failed attempt. -/
theorem generate_retry_backoff (scene : Scene) (attemptRes : Nat → Except String String)
    (maxRetries : Nat) (d : ℚ) (hmr : 1 ≤ maxRetries) :
    (∀ e, (∀ j, j < maxRetries → (attemptRes j).toOption = none) →
      attemptRes (maxRetries - 1) = .error e →
      VideoGeneration.generateSingleVideo scene attemptRes maxRetries d =
        (some (.error (VideoGeneration.retryMessage maxRetries e)),
         (List.range (maxRetries - 1)).map fun j => d * 2 ^ j)) ∧
    (∀ k u, k < maxRetries → (∀ j, j < k → (attemptRes j).toOption = none) →
      attemptRes k = .ok u →
      VideoGeneration.generateSingleVideo scene attemptRes maxRetries d =
        (some (.ok u), (List.range k).map fun j => d * 2 ^ j)) := by
  constructor
  · intro e hfail hlast
    rw [show VideoGeneration.generateSingleVideo scene attemptRes maxRetries d
          = VideoGeneration.genLoop attemptRes maxRetries d 0 maxRetries [] from rfl,
       genLoop_all_fail attemptRes maxRetries d e maxRetries 0 [] (by omega) (by omega)
         (fun j _ hj => hfail j hj) hlast]
    simp [List.range_eq_range']
  · intro k u hk hfail hsucc
    rw [show VideoGeneration.generateSingleVideo scene attemptRes maxRetries d
          = VideoGeneration.genLoop attemptRes maxRetries d 0 maxRetries [] from rfl,
       genLoop_first_success attemptRes maxRetries d u k 0 maxRetries [] (by omega)
         (by omega) (fun j _ hj => hfail j (by omega)) (by simpa using hsucc)]
    simp [List.range_eq_range']

/-- Witness for C4: one failed attempt with one backoff sleep, then success on
the second attempt, returning its url. -/
theorem generate_retry_backoff_witness :
    VideoGeneration.generateSingleVideo sceneSeven flakyAttempts 3 1 =
      (some (.ok "https://clip.mp4"), (List.range 1).map fun j => (1 : ℚ) * 2 ^ j) :=
  (generate_retry_backoff sceneSeven flakyAttempts 3 1 (by omega)).2 1 "https://clip.mp4"
    (by omega)
    (fun j hj => by
      have h0 : j = 0 := by omega
      subst h0
      rfl)
    rfl

/-- The three filter phases of stitch_videos — truthy url, download succeeded,
clip opened — compose to the survivors observable. -/
theorem survivors_eq (env : VideoGeneration.StitchEnv) (scenes : List Scene) :
    (((scenes.enum.filter fun p => truthyUrl p.2.url).filter
        fun p => env.downloadOk p.1).filter fun p => env.openOk p.1)
      = VideoGeneration.survivors env scenes := by
  simp only [List.filter_filter, VideoGeneration.survivors]
  refine List.filter_congr fun p _ => ?_
  cases truthyUrl p.2.url <;> cases env.downloadOk p.1 <;> cases env.openOk p.1 <;> rfl

/-- Claim C6, counterexample: the legacy video_editor.stitch_videos, given
three sources of which exactly the middle one fails to download (two valid +
one unreachable), aborts the whole call with the download exception instead
of succeeding with the two surviving clips. -/
theorem editor_aborts_on_single_download_failure :
    (VideoEditor.stitchVideos eenvDown1 itemsThree "final_video.mp4").1
      = .exc "download failed" ∧
    (itemsThree.enum.filter fun p =>
        truthyUrl p.2.url && eenvDown1.downloadOk p.1 && eenvDown1.openOk p.1).length
      = 2 := by decide

/-- Claim C6, amended: the async VideoStitcher.stitch_videos fails with an
error when its input set is empty (the no-scenes ValueError) and whenever no
clip survives the download and open phases, and it tolerates individual
download or open failures: when at least one clip survives (and the write
phase succeeds) it returns success using exactly the surviving clips, in
order.  The legacy video_editor.stitch_videos instead aborts on the first
failed download or unopenable clip (see the counterexample). -/
theorem stitch_error_and_tolerance (env : VideoGeneration.StitchEnv)
    (scenes : List Scene) (outputPath : String) :
    (VideoGeneration.stitchVideosRun env [] outputPath).1 = .error .noScenes ∧
    (VideoGeneration.survivors env scenes = [] →
      ∃ err, (VideoGeneration.stitchVideosRun env scenes outputPath).1 = .error err) ∧
    (¬ VideoGeneration.survivors env scenes = [] → env.writeOk = true →
      (VideoGeneration.stitchVideosRun env scenes outputPath).1 =
        .ok (outputPath, (VideoGeneration.survivors env scenes).map Prod.snd)) := by
  refine ⟨rfl, ?_, ?_⟩
  · intro hsurv
    simp only [VideoGeneration.stitchVideosRun]
    split_ifs with h1 h2 h3 h4 h5
    · exact ⟨.noScenes, rfl⟩
    · exact ⟨.noValidUrls, rfl⟩
    · exact ⟨.noneDownloaded, rfl⟩
    · exact ⟨.noClips, rfl⟩
    · exact absurd ((survivors_eq env scenes).trans hsurv) h4
    · exact ⟨.writeFailed, rfl⟩
  · intro hsurv hw
    simp only [VideoGeneration.stitchVideosRun]
    split_ifs with h1 h2 h3 h4
    · subst h1
      exact absurd rfl hsurv
    · exact absurd (by rw [← survivors_eq env scenes, h2]; rfl) hsurv
    · exact absurd (by rw [← survivors_eq env scenes, h3]; rfl) hsurv
    · exact absurd ((survivors_eq env scenes).symm.trans h4) hsurv
    · rw [survivors_eq env scenes]

/-- Witness for C6: with the download of the scene at index 1 failing and the
other two surviving, stitch_videos succeeds using exactly the survivors. -/
theorem stitch_error_and_tolerance_witness :
    (VideoGeneration.stitchVideosRun envDown1 itemsThree "final_video.mp4").1 =
      .ok ("final_video.mp4", (VideoGeneration.survivors envDown1 itemsThree).map Prod.snd) :=
  (stitch_error_and_tolerance envDown1 itemsThree "final_video.mp4").2.2 (by decide) rfl

/-- Claim C9, counterexample: in the legacy video_editor.stitch_videos, when
the download of the second item raises after the first clip was already
opened, the exception propagates while the first clip is still open — an
opened clip is not closed on this exit path (the temp files are deleted). -/
theorem editor_leaks_open_clips_on_exception :
    VideoEditor.stitchVideos eenvDown1 itemsThree "out.mp4" =
      (.exc "download failed", ⟨[], [0]⟩) ∧
    ¬ (VideoEditor.stitchVideos eenvDown1 itemsThree "out.mp4").2.openClips = [] := by
  decide

/-- Claim C9, amended: on every exit path of the async
VideoStitcher.stitch_videos every opened clip is closed and every temp file
created during the call is deleted best-effort (all of them when none is
locked), and the legacy video_editor.stitch_videos also deletes its temp files
on every exit path; but the legacy stitcher closes its opened clips only on
the success path (see the counterexample). -/
theorem cleanup_on_all_paths (env : VideoGeneration.StitchEnv)
    (eenv : VideoEditor.EditorEnv) (scenes items : List Scene) (p q : String)
    (hl : ∀ i, env.locked i = false) (hel : ∀ i, eenv.locked i = false) :
    (VideoGeneration.stitchVideosRun env scenes p).2.openClips = [] ∧
    (VideoGeneration.stitchVideosRun env scenes p).2.tempFiles = [] ∧
    (VideoEditor.stitchVideos eenv items q).2.tempFiles = [] := by
  refine ⟨?_, ?_, ?_⟩
  · simp only [VideoGeneration.stitchVideosRun]
    split_ifs <;> rfl
  · simp only [VideoGeneration.stitchVideosRun]
    split_ifs <;> simp [VideoGeneration.cleanupTempFiles, filter_of_false hl]
  · rcases hloop : VideoEditor.editorLoop eenv items.enum [] [] with ⟨msg, created, opened⟩
    cases msg with
    | some m => simp [VideoEditor.stitchVideos, hloop, filter_of_false hel]
    | none =>
      simp only [VideoEditor.stitchVideos, hloop]
      split_ifs <;> simp [filter_of_false hel]

/-- Witness for C9 at concrete environments with no locked temp file. -/
theorem cleanup_on_all_paths_witness :
    (VideoGeneration.stitchVideosRun envDown1 itemsThree "final_video.mp4").2.openClips = [] ∧
    (VideoGeneration.stitchVideosRun envDown1 itemsThree "final_video.mp4").2.tempFiles = [] ∧
    (VideoEditor.stitchVideos eenvDown1 itemsThree "final_video.mp4").2.tempFiles = [] :=
  cleanup_on_all_paths envDown1 eenvDown1 itemsThree itemsThree "final_video.mp4"
    "final_video.mp4" (fun _ => rfl) (fun _ => rfl)

/-- Rebuilding a Scene from the fields of a response item is the identity
(generate_and_stitch_video lines 420-428). -/
theorem map_rebuild (l : List Scene) :
    l.map (fun s => mkScene ⟨s.sec, s.scene, s.dialog⟩ s.url) = l := by
  have hid : (fun s : Scene => mkScene ⟨s.sec, s.scene, s.dialog⟩ s.url) = id :=
    funext fun s => rfl
  rw [hid, List.map_id]

/-- Claim C1: whenever the pipeline returns success, the stitched output is
composed of exactly the scenes whose generation succeeded (a permutation of
them) concatenated in strictly increasing sec order — scenes that failed
generation are dropped entirely, never stitched as gaps.  Hypotheses: each
download and open succeeds (so the stitch phase does not drop further scenes),
and the input sequence indices are pairwise distinct, as the data model
requires.  The download-completion order plays no role: asyncio.gather returns
results positionally, and the embedding reflects that the concatenation order
is the sorted-response order, not a completion order. -/
theorem stitched_output_ordered (gen : SceneData → Except String String)
    (env : VideoGeneration.StitchEnv) (sd : List SceneData) (outputPath p : String)
    (stitched : List Scene)
    (hdl : ∀ i, env.downloadOk i = true) (hop : ∀ i, env.openOk i = true)
    (hnodup : (sd.map SceneData.sec).Nodup)
    (hok : (VideoGeneration.generateAndStitchVideo gen env sd outputPath).1
       = .ok p stitched) :
    List.Perm stitched (VideoGeneration.genSuccesses gen sd) ∧
    List.Pairwise (fun a b : Scene => a.sec < b.sec) stitched := by
  by_cases hresp : VideoGeneration.processScenes gen sd = []
  · simp only [VideoGeneration.generateAndStitchVideo] at hok
    rw [if_pos hresp] at hok
    simp at hok
  · have hmem : ∀ s ∈ VideoGeneration.processScenes gen sd, truthyUrl s.url = true := by
      intro s hs
      have hsucc : s ∈ VideoGeneration.genSuccesses gen sd :=
        (List.mem_insertionSort VideoGeneration.secLe).mp hs
      exact (List.mem_filter.mp hsucc).2
    have henum : ¬ (VideoGeneration.processScenes gen sd).enum = [] :=
      fun h => hresp (List.enum_eq_nil.mp h)
    have htasks : (VideoGeneration.processScenes gen sd).enum.filter
        (fun p => truthyUrl p.2.url) = (VideoGeneration.processScenes gen sd).enum :=
      List.filter_eq_self.mpr fun q hq => hmem q.2 (List.snd_mem_of_mem_enum hq)
    have hvalidall : (VideoGeneration.processScenes gen sd).enum.filter
        (fun p => env.downloadOk p.1) = (VideoGeneration.processScenes gen sd).enum :=
      List.filter_eq_self.mpr fun q _ => hdl q.1
    have hopall : (VideoGeneration.processScenes gen sd).enum.filter
        (fun p => env.openOk p.1) = (VideoGeneration.processScenes gen sd).enum :=
      List.filter_eq_self.mpr fun q _ => hop q.1
    have hstitch : (VideoGeneration.stitchVideosRun env
        (VideoGeneration.processScenes gen sd) outputPath).1
        = if env.writeOk = true
          then .ok (outputPath, VideoGeneration.processScenes gen sd)
          else .error .writeFailed := by
      simp only [VideoGeneration.stitchVideosRun]
      rw [if_neg hresp, htasks, if_neg henum, hvalidall, if_neg henum, hopall,
        if_neg henum, List.enum_map_snd]
      split_ifs with hw <;> rfl
    simp only [VideoGeneration.generateAndStitchVideo] at hok
    rw [if_neg hresp, map_rebuild, hstitch] at hok
    by_cases hw : env.writeOk = true
    · rw [if_pos hw] at hok
      simp at hok
      obtain ⟨hpath, hs⟩ := hok
      subst hs
      have hperm : List.Perm (VideoGeneration.processScenes gen sd)
          (VideoGeneration.genSuccesses gen sd) :=
        List.perm_insertionSort VideoGeneration.secLe _
      have hsorted : List.Pairwise VideoGeneration.secLe
          (VideoGeneration.processScenes gen sd) :=
        List.sorted_insertionSort VideoGeneration.secLe _
      have hsubsec : List.Sublist ((VideoGeneration.genSuccesses gen sd).map Scene.sec)
          (sd.map SceneData.sec) := by
        have h1 : List.Sublist ((VideoGeneration.genSuccesses gen sd).map Scene.sec)
            ((sd.map fun d => mkScene d (gen d).toOption).map Scene.sec) :=
          (List.filter_sublist _).map Scene.sec
        rwa [List.map_map] at h1
      have hnodupsucc : ((VideoGeneration.genSuccesses gen sd).map Scene.sec).Nodup :=
        List.Nodup.sublist hsubsec hnodup
      have hnodupresp : ((VideoGeneration.processScenes gen sd).map Scene.sec).Nodup :=
        (hperm.map Scene.sec).nodup_iff.mpr hnodupsucc
      have hne : List.Pairwise (fun a b : Scene => ¬ a.sec = b.sec)
          (VideoGeneration.processScenes gen sd) :=
        List.pairwise_map.mp hnodupresp
      exact ⟨hperm, (hsorted.and hne).imp fun hab => lt_of_le_of_ne hab.1 hab.2⟩
    · rw [if_neg hw] at hok
      simp at hok

/-- Witness for C1: two scenes given in reversed timeline order both generate,
and the pipeline stitches them sorted by sec. -/
theorem stitched_output_ordered_witness :
    List.Perm [mkScene sdA (some "https://clip.mp4"), mkScene sdB (some "https://clip.mp4")]
      (VideoGeneration.genSuccesses genOk [sdB, sdA]) ∧
    List.Pairwise (fun a b : Scene => a.sec < b.sec)
      [mkScene sdA (some "https://clip.mp4"), mkScene sdB (some "https://clip.mp4")] :=
  stitched_output_ordered genOk envAllOk [sdB, sdA] "final_video.mp4" "final_video.mp4"
    [mkScene sdA (some "https://clip.mp4"), mkScene sdB (some "https://clip.mp4")]
    (fun _ => rfl) (fun _ => rfl) (by decide) (by decide)

end VideoAgent
